import Mathlib

/-!
Verification development for the fetch-doc service: a shallow embedding of
`src/tmp.py`, which looks up a Google Doc by name inside a Drive folder and
converts the fetched document structure to HTML.

The data model mirrors the JSON dictionary shapes consumed by
`convert_google_doc_to_html`: every field read through `dict.get(key, default)`
is an `Option` here, with the same default applied at the use site.
-/

namespace FetchDoc

/-- Characters removed by Python's `str.strip()` (the ASCII whitespace set:
space, tab, newline, carriage return, vertical tab, form feed). -/
def is_space (c : Char) : Bool :=
  c = ' ' || c = '\t' || c = '\n' || c = '\r' || c = Char.ofNat 11 || c = Char.ofNat 12

/-- Python `str.strip()`: drop leading and trailing whitespace characters. -/
def py_strip (s : String) : String :=
  ⟨((s.data.dropWhile is_space).reverse.dropWhile is_space).reverse⟩

/-- `textStyle` object of a text run: each flag is absent or an explicit
boolean; `text_style.get('bold')` is truthy exactly when the flag is
present and true. -/
structure GTextStyle where
  bold : Option Bool := none
  italic : Option Bool := none
  underline : Option Bool := none
deriving Repr, DecidableEq, Inhabited

/-- `textRun` object: `content` text and an optional `textStyle`. -/
structure GTextRun where
  content : Option String := none
  textStyle : Option GTextStyle := none
deriving Repr, DecidableEq, Inhabited

/-- A paragraph element: either a `textRun` or some other element kind that
the converter skips (`if 'textRun' in elem`). -/
inductive GParaElement where
  | textRun (r : GTextRun)
  | otherElem
deriving Repr, DecidableEq, Inhabited

/-- `paragraphStyle` object, holding the optional `namedStyleType`. -/
structure GParagraphStyle where
  namedStyleType : Option String := none
deriving Repr, DecidableEq, Inhabited

/-- `paragraph` object: optional `elements` list and optional
`paragraphStyle`. -/
structure GParagraph where
  elements : Option (List GParaElement) := none
  paragraphStyle : Option GParagraphStyle := none
deriving Repr, DecidableEq, Inhabited

/-- An element of a table cell's `content` list: the converter only reads
`paragraph` entries and skips everything else. -/
inductive GCellElement where
  | paragraph (p : GParagraph)
  | otherCell
deriving Repr, DecidableEq, Inhabited

/-- `tableCell` object with its optional `content` list. -/
structure GTableCell where
  content : Option (List GCellElement) := none
deriving Repr, DecidableEq, Inhabited

/-- `tableRow` object with its optional `tableCells` list. -/
structure GTableRow where
  tableCells : Option (List GTableCell) := none
deriving Repr, DecidableEq, Inhabited

/-- `table` object with its optional `tableRows` list. -/
structure GTable where
  tableRows : Option (List GTableRow) := none
deriving Repr, DecidableEq, Inhabited

/-- A body element: the converter dispatches on `'paragraph' in element`,
then `'table' in element`, and silently skips anything else. -/
inductive GElement where
  | paragraph (p : GParagraph)
  | table (t : GTable)
  | other
deriving Repr, DecidableEq, Inhabited

/-- `body` object with its optional `content` list. -/
structure GBody where
  content : Option (List GElement) := none
deriving Repr, DecidableEq, Inhabited

/-- The document object passed to `convert_google_doc_to_html`: optional
`title` and optional `body`. -/
structure GDoc where
  title : Option String := none
  body : Option GBody := none
deriving Repr, DecidableEq, Inhabited

/-- Per-run styled markup (lines 271-283 of `src/tmp.py`): starting from the
run's `content` text, wrap in a bold span if the bold flag is truthy, then an
italic span, then an underline span. -/
def styled_run (r : GTextRun) : String :=
  let content_text := r.content.getD ""
  let text_style := r.textStyle.getD {}
  let s1 := if text_style.bold.getD false then
      "<span class=\"bold\">" ++ content_text ++ "</span>" else content_text
  let s2 := if text_style.italic.getD false then
      "<span class=\"italic\">" ++ s1 ++ "</span>" else s1
  let s3 := if text_style.underline.getD false then
      "<span class=\"underline\">" ++ s2 ++ "</span>" else s2
  s3

/-- The `text_parts` list built for a paragraph: the styled markup of each
`textRun` element, in order; non-`textRun` elements contribute nothing. -/
def text_parts (pes : List GParaElement) : List String :=
  pes.filterMap fun pe =>
    match pe with
    | .textRun r => some (styled_run r)
    | .otherElem => none

/-- The joined (pre-strip) styled markup of a paragraph:
`''.join(text_parts)` before the `.strip()` call on line 285. -/
def joined_styled (p : GParagraph) : String :=
  String.join (text_parts (p.elements.getD []))

/-- The `namedStyleType` read for a paragraph, defaulting to
`'NORMAL_TEXT'` (line 264). -/
def named_style (p : GParagraph) : String :=
  (p.paragraphStyle.getD {}).namedStyleType.getD "NORMAL_TEXT"

/-- HTML lines appended for one paragraph element (lines 258-295): join the
styled run markup, strip it, and if the result is non-empty emit one node
whose tag is chosen by the named style. -/
def render_paragraph (p : GParagraph) : List String :=
  let combined_text := py_strip (joined_styled p)
  if combined_text = "" then []
  else if named_style p = "HEADING_1" then ["<h1>" ++ combined_text ++ "</h1>"]
  else if named_style p = "HEADING_2" then ["<h2>" ++ combined_text ++ "</h2>"]
  else if named_style p = "HEADING_3" then ["<h3>" ++ combined_text ++ "</h3>"]
  else ["<p>" ++ combined_text ++ "</p>"]

/-- Raw run text extracted inside a table cell (line 310): the `content`
string of a `textRun`, with no styling applied; other elements are skipped. -/
def cell_run_text (pe : GParaElement) : Option String :=
  match pe with
  | .textRun r => some (r.content.getD "")
  | .otherElem => none

/-- Raw run texts of one entry of a cell's content list (lines 306-310):
only `paragraph` entries contribute, each via all of its `textRun`s. -/
def cell_block_texts (ce : GCellElement) : List String :=
  match ce with
  | .paragraph p => (p.elements.getD []).filterMap cell_run_text
  | .otherCell => []

/-- The plain-text pieces collected for one table cell (lines 304-310): for
every `paragraph` entry of the cell's content, the raw `content` string of
every `textRun`, with no styling applied. -/
def cell_texts (c : GTableCell) : List String :=
  List.flatten ((c.content.getD []).map cell_block_texts)

/-- HTML line for one table cell (line 311): the joined plain text,
stripped, inside a `td` node. -/
def render_cell (c : GTableCell) : String :=
  "<td>" ++ py_strip (String.join (cell_texts c)) ++ "</td>"

/-- HTML lines for one table row (lines 302-312): `tr` open, one `td` per
cell in order, `tr` close. -/
def render_row (row : GTableRow) : List String :=
  ["<tr>"] ++ (row.tableCells.getD []).map render_cell ++ ["</tr>"]

/-- HTML lines for one table element (lines 297-313). -/
def render_table (t : GTable) : List String :=
  ["<table border=\"1\" cellpadding=\"5\" cellspacing=\"0\">"]
    ++ List.flatten ((t.tableRows.getD []).map render_row)
    ++ ["</table>"]

/-- HTML lines appended for one body element: a paragraph or a table; any
other element kind is skipped. -/
def render_element (e : GElement) : List String :=
  match e with
  | .paragraph p => render_paragraph p
  | .table t => render_table t
  | .other => []

/-- The loop over `content` (line 257): lines appended for each element in
order. -/
def render_body : List GElement → List String
  | [] => []
  | e :: rest => render_element e ++ render_body rest

/-- The document title with its default (line 230). -/
def doc_title (document : GDoc) : String :=
  document.title.getD "Untitled Document"

/-- The fixed opening lines of the HTML document (lines 234-255), including
the page title and the top-level `h1` rendering the title. -/
def header_parts (title : String) : List String :=
  [ "<!DOCTYPE html>",
    "<html>",
    "<head>",
    "<title>" ++ title ++ "</title>",
    "<meta charset=\"UTF-8\">",
    "<style>",
    "body \x7b font-family: Arial, sans-serif; max-width: 800px; margin: 40px auto; padding: 20px; line-height: 1.6; \x7d",
    "h1 \x7b font-size: 24px; margin-top: 20px; margin-bottom: 10px; \x7d",
    "h2 \x7b font-size: 20px; margin-top: 18px; margin-bottom: 8px; \x7d",
    "h3 \x7b font-size: 16px; margin-top: 16px; margin-bottom: 6px; \x7d",
    "p \x7b margin: 10px 0; \x7d",
    "ul, ol \x7b margin: 10px 0; padding-left: 30px; \x7d",
    "li \x7b margin: 5px 0; \x7d",
    ".bold \x7b font-weight: bold; \x7d",
    ".italic \x7b font-style: italic; \x7d",
    ".underline \x7b text-decoration: underline; \x7d",
    "</style>",
    "</head>",
    "<body>",
    "<h1>" ++ title ++ "</h1>" ]

/-- The full `html_parts` list built by `convert_google_doc_to_html`. -/
def html_parts (document : GDoc) : List String :=
  header_parts (doc_title document)
    ++ render_body ((document.body.getD {}).content.getD [])
    ++ ["</body>", "</html>"]

/-- `convert_google_doc_to_html` (lines 225-320): the HTML lines joined with
newlines. -/
def convert_google_doc_to_html (document : GDoc) : String :=
  String.intercalate "\n" (html_parts document)

/-- An `HttpError` raised by a Google API call, carrying its HTTP status
(`e.resp.status`). -/
structure HttpErr where
  status : Nat
deriving Repr, DecidableEq, Inhabited

/-- One entry of the `files` list returned by the Drive `files().list` call
(fields `id, name`). -/
structure GFile where
  id : String
  name : String
deriving Repr, DecidableEq, Inhabited

/-- The Drive search call made by `find_document_in_folder`: given the
document name and folder id, it returns the matching `files` list or raises
an `HttpError`. The query string construction itself is opaque transport. -/
def DriveSearch : Type := String → String → Except HttpErr (List GFile)

/-- The Docs fetch call `documents().get(documentId=...).execute()`: returns
the document or raises an `HttpError`. -/
def DocsFetch : Type := String → Except HttpErr GDoc

/-- `find_document_in_folder` (lines 194-222): run the Drive search; an
empty result list gives `None`, otherwise the first file's id is returned.
An `HttpError` raised by the search is caught inside the function (printed
and swallowed) and `None` is returned. -/
def find_document_in_folder (drive : DriveSearch) (doc_name folder_id : String) :
    Option String :=
  match drive doc_name folder_id with
  | .error _ => none
  | .ok [] => none
  | .ok (f :: _) => some f.id

/-- A Lambda response: the HTTP status code and the body string. For error
responses the body models the `error` message placed in the JSON envelope;
for success it is the HTML document. -/
structure Response where
  statusCode : Nat
  body : String
deriving Repr, DecidableEq, Inhabited

/-- The error message chosen in the `except HttpError` handler
(lines 165-170). -/
def http_error_message (e : HttpErr) : String :=
  if e.status = 404 then "Document not found"
  else if e.status = 403 then
    "Access denied. Service account may not have permission to access this document or folder"
  else "Google API Error: " ++ toString e.status

/-- The lookup-and-fetch stage of `lambda_handler` (lines 132-180), entered
after a `doc_name` was extracted and credentials/services were built
successfully: search the folder, return 404 when no document id came back,
otherwise fetch and convert the document; an `HttpError` raised by the fetch
is answered with that error's own status code. -/
def lambda_handler_fetch (drive : DriveSearch) (docs : DocsFetch)
    (doc_name folder_id : String) : Response :=
  match find_document_in_folder drive doc_name folder_id with
  | none =>
      { statusCode := 404,
        body := "Document \"" ++ doc_name ++ "\" not found in the specified folder" }
  | some doc_id =>
      match docs doc_id with
      | .error e => { statusCode := e.status, body := http_error_message e }
      | .ok document => { statusCode := 200, body := convert_google_doc_to_html document }

/-! Derived notions used to state properties of the renderer. -/

/-- The `textRun` objects of a paragraph's element list, in order. -/
def para_runs (pes : List GParaElement) : List GTextRun :=
  pes.filterMap fun pe =>
    match pe with
    | .textRun r => some r
    | .otherElem => none

/-- The concatenated plain (unstyled) text of a paragraph's runs. -/
def plain_text (p : GParagraph) : String :=
  String.join ((para_runs (p.elements.getD [])).map fun r => r.content.getD "")

/-- The effective bold flag of a run, as read by the converter. -/
def bold_flag (r : GTextRun) : Bool :=
  (r.textStyle.getD {}).bold.getD false

/-- The effective italic flag of a run, as read by the converter. -/
def italic_flag (r : GTextRun) : Bool :=
  (r.textStyle.getD {}).italic.getD false

/-- The effective underline flag of a run, as read by the converter. -/
def underline_flag (r : GTextRun) : Bool :=
  (r.textStyle.getD {}).underline.getD false

/-- A run none of whose three style flags is effective. -/
def run_unstyled (r : GTextRun) : Bool :=
  !bold_flag r && !italic_flag r && !underline_flag r

/-- The bold span wrapper emitted by the converter. -/
def bold_wrap (s : String) : String :=
  "<span class=\"bold\">" ++ s ++ "</span>"

/-- The italic span wrapper emitted by the converter. -/
def italic_wrap (s : String) : String :=
  "<span class=\"italic\">" ++ s ++ "</span>"

/-- The underline span wrapper emitted by the converter. -/
def underline_wrap (s : String) : String :=
  "<span class=\"underline\">" ++ s ++ "</span>"

/-- A run with the same content but no `textStyle` object. -/
def erase_run_styles (r : GTextRun) : GTextRun :=
  { content := r.content, textStyle := none }

/-- A paragraph element with all run styling removed. -/
def erase_pe_styles (pe : GParaElement) : GParaElement :=
  match pe with
  | .textRun r => .textRun (erase_run_styles r)
  | .otherElem => .otherElem

/-- A cell content entry with all run styling removed. -/
def erase_ce_styles (ce : GCellElement) : GCellElement :=
  match ce with
  | .paragraph p =>
      .paragraph { elements := p.elements.map (List.map erase_pe_styles),
                   paragraphStyle := p.paragraphStyle }
  | .otherCell => .otherCell

/-- A table cell with all run styling removed. -/
def erase_cell_styles (c : GTableCell) : GTableCell :=
  { content := c.content.map (List.map erase_ce_styles) }

/-! Shared lemmas. -/

lemma text_parts_eq_map (pes : List GParaElement) :
    text_parts pes = (para_runs pes).map styled_run := by
  induction pes with
  | nil => rfl
  | cons pe rest ih =>
      cases pe <;> simp [text_parts, para_runs, List.filterMap_cons] at ih ⊢ <;> exact ih

lemma styled_run_of_unstyled (r : GTextRun) (h : run_unstyled r = true) :
    styled_run r = r.content.getD "" := by
  simp only [run_unstyled, Bool.and_eq_true, Bool.not_eq_true'] at h
  obtain ⟨⟨hb, hi⟩, hu⟩ := h
  simp only [bold_flag, italic_flag, underline_flag] at hb hi hu
  simp [styled_run, hb, hi, hu]

lemma joined_styled_of_unstyled (p : GParagraph)
    (h : (para_runs (p.elements.getD [])).all run_unstyled = true) :
    joined_styled p = plain_text p := by
  unfold joined_styled plain_text
  rw [text_parts_eq_map]
  congr 1
  apply List.map_congr_left
  intro r hr
  exact styled_run_of_unstyled r (List.all_eq_true.mp h r hr)

lemma py_strip_substring (s : String) : (py_strip s).data <:+: s.data := by
  show (((s.data.dropWhile is_space).reverse.dropWhile is_space).reverse) <:+: s.data
  have h1 : s.data.dropWhile is_space <:+ s.data := List.dropWhile_suffix _
  have h2 : (s.data.dropWhile is_space).reverse.dropWhile is_space
      <:+ (s.data.dropWhile is_space).reverse := List.dropWhile_suffix _
  have h3 : ((s.data.dropWhile is_space).reverse.dropWhile is_space).reverse
      <+: s.data.dropWhile is_space := by
    have h4 := List.reverse_prefix.mpr h2
    simpa using h4
  exact h3.isInfix.trans h1.isInfix

lemma wrap_keeps_substring (a s b : String) : s.data <:+: (a ++ s ++ b).data := by
  rw [String.data_append, String.data_append]
  exact List.infix_append _ _ _

lemma wrap_if_keeps_substring (s t a b : String) (c : Bool) (h : s.data <:+: t.data) :
    s.data <:+: (if c then a ++ t ++ b else t).data := by
  cases c
  · simpa using h
  · simpa using h.trans (wrap_keeps_substring a t b)

lemma filterMap_cell_run_text_erase (pes : List GParaElement) :
    (pes.map erase_pe_styles).filterMap cell_run_text = pes.filterMap cell_run_text := by
  induction pes with
  | nil => rfl
  | cons pe rest ih =>
      cases pe <;>
        simp [erase_pe_styles, erase_run_styles, cell_run_text,
          List.filterMap_cons] at ih ⊢ <;> exact ih

lemma cell_block_texts_erase (ce : GCellElement) :
    cell_block_texts (erase_ce_styles ce) = cell_block_texts ce := by
  cases ce with
  | otherCell => rfl
  | paragraph p =>
      simp only [erase_ce_styles, cell_block_texts]
      cases hp : p.elements with
      | none => rfl
      | some pes => exact filterMap_cell_run_text_erase pes

lemma cell_texts_erase (c : GTableCell) :
    cell_texts (erase_cell_styles c) = cell_texts c := by
  simp only [cell_texts, erase_cell_styles]
  cases hc : c.content with
  | none => rfl
  | some l =>
      show ((l.map erase_ce_styles).map cell_block_texts).flatten = (l.map cell_block_texts).flatten
      rw [List.map_map]
      congr 1
      apply List.map_congr_left
      intro ce _
      exact cell_block_texts_erase ce

/-! Claim theorems. -/

/-- C4: every text run's markup wraps its text with style markers in exactly
the nesting order bold (innermost), then italic, then underline; each flag
independently adds only its own wrapper, unset flags add none, and with all
three flags set the result is `underline (italic (bold text))`. -/
theorem styled_run_nesting :
    (∀ r : GTextRun,
        styled_run r =
          (if underline_flag r then underline_wrap else id)
            ((if italic_flag r then italic_wrap else id)
              ((if bold_flag r then bold_wrap else id) (r.content.getD "")))) ∧
    (∀ text : String,
        styled_run { content := some text,
                     textStyle := some { bold := some true, italic := some true,
                                         underline := some true } }
          = underline_wrap (italic_wrap (bold_wrap text))) := by
  constructor
  · intro r
    simp only [styled_run, bold_wrap, italic_wrap, underline_wrap,
      bold_flag, italic_flag, underline_flag]
    cases hb : (r.textStyle.getD {}).bold.getD false <;>
      cases hi : (r.textStyle.getD {}).italic.getD false <;>
        cases hu : (r.textStyle.getD {}).underline.getD false <;>
          simp [bold_wrap, italic_wrap, underline_wrap]
  · intro text
    rfl

/-- C6: body output follows input element order exactly (the rendering loop
is the concatenation, in order, of each element's own lines, so elements are
never reordered, duplicated or deduplicated), and run, table row and cell
order are likewise preserved as the order of the corresponding `map`. -/
theorem render_preserves_order :
    (∀ content : List GElement,
        render_body content = (content.map render_element).flatten) ∧
    (∀ xs ys : List GElement,
        render_body (xs ++ ys) = render_body xs ++ render_body ys) ∧
    (∀ runs : List GTextRun,
        text_parts (runs.map GParaElement.textRun) = runs.map styled_run) ∧
    (∀ t : GTable,
        render_table t =
          "<table border=\"1\" cellpadding=\"5\" cellspacing=\"0\">"
            :: (((t.tableRows.getD []).map render_row).flatten ++ ["</table>"])) ∧
    (∀ row : GTableRow,
        render_row row = "<tr>" :: ((row.tableCells.getD []).map render_cell ++ ["</tr>"])) := by
  have hbody : ∀ content : List GElement,
      render_body content = (content.map render_element).flatten := by
    intro content
    induction content with
    | nil => rfl
    | cons e rest ih => simp [render_body, ih]
  refine ⟨hbody, ?_, ?_, fun t => rfl, fun row => rfl⟩
  · intro xs ys
    rw [hbody, hbody, hbody, List.map_append, List.flatten_append]
  · intro runs
    rw [text_parts_eq_map]
    congr 1
    induction runs with
    | nil => rfl
    | cons r rest ih => simp [para_runs, List.filterMap_cons] at ih ⊢; exact ih

/-- C9: the renderer is total — it is a plain function returning the joined
line list for every document — and absent optional fields degrade to empty
output for their section: no `body`/`content` renders like an empty element
list, a paragraph with no runs emits no node, a table with no rows has no
row nodes, a row with no cells has no cell nodes, a cell with no content is
empty. -/
theorem render_total_degrades :
    (∀ d : GDoc, convert_google_doc_to_html d = String.intercalate "\n" (html_parts d)) ∧
    (convert_google_doc_to_html {} =
      convert_google_doc_to_html { body := some { content := some [] } }) ∧
    (render_paragraph {} = []) ∧
    (render_table {} = ["<table border=\"1\" cellpadding=\"5\" cellspacing=\"0\">", "</table>"]) ∧
    (render_row {} = ["<tr>", "</tr>"]) ∧
    (render_cell {} = "<td></td>") :=
  ⟨fun _ => rfl, rfl, rfl, rfl, rfl, rfl⟩

/-- C10: a document with no `title` field renders with the fixed default
`Untitled Document`: its output lines equal those of a document titled
`Untitled Document`, and both the head page title line and the top-level
heading line carry the default. -/
theorem missing_title_uses_default :
    (∀ b : Option GBody,
        html_parts { title := none, body := b } =
          html_parts { title := some "Untitled Document", body := b }) ∧
    ("<title>Untitled Document</title>" ∈ html_parts ({} : GDoc)) ∧
    ("<h1>Untitled Document</h1>" ∈ html_parts ({} : GDoc)) := by
  refine ⟨fun b => rfl, ?_, ?_⟩ <;> simp [html_parts, header_parts, doc_title, render_body]

/-- C5: for a non-empty paragraph the output tag is chosen by the named
style totally and exhaustively: `HEADING_1/2/3` yield the matching heading
node and every other value — `NORMAL_TEXT` included — yields a plain
paragraph node. -/
theorem render_paragraph_tag_mapping (p : GParagraph)
    (h : py_strip (joined_styled p) ≠ "") :
    (named_style p = "HEADING_1" →
      render_paragraph p = ["<h1>" ++ py_strip (joined_styled p) ++ "</h1>"]) ∧
    (named_style p = "HEADING_2" →
      render_paragraph p = ["<h2>" ++ py_strip (joined_styled p) ++ "</h2>"]) ∧
    (named_style p = "HEADING_3" →
      render_paragraph p = ["<h3>" ++ py_strip (joined_styled p) ++ "</h3>"]) ∧
    (named_style p ≠ "HEADING_1" → named_style p ≠ "HEADING_2" →
      named_style p ≠ "HEADING_3" →
      render_paragraph p = ["<p>" ++ py_strip (joined_styled p) ++ "</p>"]) := by
  simp only [render_paragraph, if_neg h]
  refine ⟨fun h1 => ?_, fun h2 => ?_, fun h3 => ?_, fun h1 h2 h3 => ?_⟩
  · rw [if_pos h1]
  · rw [if_neg (by simp [h2]), if_pos h2]
  · rw [if_neg (by simp [h3]), if_neg (by simp [h3]), if_pos h3]
  · rw [if_neg h1, if_neg h2, if_neg h3]

/-- Witness input for the tag-mapping theorem: an unrecognized named style. -/
def c5_para : GParagraph :=
  { elements := some [.textRun { content := some "x" }],
    paragraphStyle := some { namedStyleType := some "SUBTITLE" } }

/-- Witness for C5: a paragraph with the unrecognized named style `SUBTITLE`
and text `x` renders as a plain paragraph node. -/
theorem render_paragraph_tag_mapping_witness :
    py_strip (joined_styled c5_para) ≠ "" ∧ render_paragraph c5_para = ["<p>x</p>"] :=
  ⟨by decide,
   (render_paragraph_tag_mapping c5_para (by decide)).2.2.2
     (by decide) (by decide) (by decide)⟩

/-- Input refuting C2: a single unstyled run with boundary whitespace. -/
def c2_para : GParagraph :=
  { elements := some [.textRun { content := some " hi " }] }

/-- Counterexample for C2: the emitted paragraph node does NOT wrap the
untrimmed joined styled markup — for the run text `" hi "` the joined markup
is `" hi "` but the node is `<p>hi</p>`, not `<p> hi </p>`. -/
theorem paragraph_content_is_trimmed :
    joined_styled c2_para = " hi " ∧
    render_paragraph c2_para = ["<p>hi</p>"] ∧
    render_paragraph c2_para ≠ ["<p>" ++ joined_styled c2_para ++ "</p>"] := by
  refine ⟨by decide, by decide, by decide⟩

/-- C2 (amended): for every non-empty paragraph, the emitted node's content
equals the joined per-run styled markup trimmed exactly once at the string
level (so whitespace in the interior, or enclosed by a style span at either
boundary, survives, while plain leading/trailing whitespace is removed);
the content is a contiguous substring of the untrimmed joined markup. -/
theorem render_paragraph_trimmed_content (p : GParagraph)
    (h : py_strip (joined_styled p) ≠ "") :
    (∃ tag_open tag_close : String,
        render_paragraph p = [tag_open ++ py_strip (joined_styled p) ++ tag_close]) ∧
    (py_strip (joined_styled p)).data <:+: (joined_styled p).data := by
  constructor
  · simp only [render_paragraph, if_neg h]
    split_ifs with h1 h2 h3
    exacts [⟨"<h1>", "</h1>", rfl⟩, ⟨"<h2>", "</h2>", rfl⟩,
      ⟨"<h3>", "</h3>", rfl⟩, ⟨"<p>", "</p>", rfl⟩]
  · exact py_strip_substring _

/-- Witness for the amended C2 at the run text `" hi "`. -/
theorem render_paragraph_trimmed_content_witness :
    py_strip (joined_styled c2_para) ≠ "" ∧
    ((∃ tag_open tag_close : String,
        render_paragraph c2_para =
          [tag_open ++ py_strip (joined_styled c2_para) ++ tag_close]) ∧
      (py_strip (joined_styled c2_para)).data <:+: (joined_styled c2_para).data) :=
  ⟨by decide, render_paragraph_trimmed_content c2_para (by decide)⟩

/-- Input refuting C1: a single whitespace-only run carrying the bold flag. -/
def c1_bold_ws_para : GParagraph :=
  { elements := some [.textRun { content := some "   ",
                                 textStyle := some { bold := some true } }] }

/-- Counterexample for C1: a paragraph whose concatenated plain text is
all-whitespace but whose run is bold DOES emit a node — the bold span makes
the joined styled markup survive the strip, so `<p><span class="bold">
</span></p>` is emitted (here shown with its exact one-line value). -/
theorem whitespace_bold_paragraph_emits_node :
    plain_text c1_bold_ws_para = "   " ∧
    py_strip (plain_text c1_bold_ws_para) = "" ∧
    render_paragraph c1_bold_ws_para = ["<p><span class=\"bold\">   </span></p>"] := by
  refine ⟨by decide, by decide, by decide⟩

/-- C1 (amended): the emptiness test is applied to the joined STYLED markup,
so the claim holds whenever no style flag is set: a paragraph all of whose
runs are unstyled and whose concatenated plain text trims to empty emits no
node, for every named style including headings. -/
theorem render_paragraph_unstyled_whitespace_empty (p : GParagraph)
    (hstyle : (para_runs (p.elements.getD [])).all run_unstyled = true)
    (hws : py_strip (plain_text p) = "") :
    render_paragraph p = [] := by
  have hj : joined_styled p = plain_text p := joined_styled_of_unstyled p hstyle
  simp only [render_paragraph, hj, if_pos hws]

/-- Witness input for the amended C1: unstyled whitespace runs under a
`HEADING_2` style. -/
def c1_ws_para : GParagraph :=
  { elements := some [.textRun { content := some " " },
                      .textRun { content := some "\t " }],
    paragraphStyle := some { namedStyleType := some "HEADING_2" } }

/-- Witness for the amended C1: two unstyled whitespace runs under a
`HEADING_2` style produce no node. -/
theorem render_paragraph_unstyled_whitespace_empty_witness :
    (para_runs (c1_ws_para.elements.getD [])).all run_unstyled = true ∧
    py_strip (plain_text c1_ws_para) = "" ∧
    render_paragraph c1_ws_para = [] :=
  ⟨by decide, by decide,
   render_paragraph_unstyled_whitespace_empty c1_ws_para (by decide) (by decide)⟩

/-- Counterexample for C3: an `AccessDenied` (403) failure raised by the
Drive search during name lookup is swallowed inside
`find_document_in_folder` and answered as 404, not 403. -/
theorem lookup_access_denied_maps_to_404 :
    (lambda_handler_fetch (fun _ _ => Except.error { status := 403 })
        (fun _ => Except.ok {}) "doc" "folder").statusCode = 404 ∧
    (lambda_handler_fetch (fun _ _ => Except.error { status := 403 })
        (fun _ => Except.ok {}) "doc" "folder").statusCode ≠ 403 := by
  refine ⟨by decide, by decide⟩

/-- C3 (amended): failure categories are preserved only for the document
FETCH — an `HttpError` raised there is answered with its own status (404,
403, 5xx unchanged) — while every lookup failure, whatever its category, is
caught inside `find_document_in_folder` and reported as 404. -/
theorem handler_error_category_mapping :
    (∀ (e : HttpErr) (docs : DocsFetch) (doc_name folder_id : String),
        (lambda_handler_fetch (fun _ _ => Except.error e) docs
            doc_name folder_id).statusCode = 404) ∧
    (∀ (e : HttpErr) (file : GFile) (more : List GFile) (doc_name folder_id : String),
        (lambda_handler_fetch (fun _ _ => Except.ok (file :: more))
            (fun _ => Except.error e) doc_name folder_id).statusCode = e.status) :=
  ⟨fun _ _ _ _ => rfl, fun _ _ _ _ _ => rfl⟩

/-- A `textRun` paragraph element with the given text and style. -/
def c7_run (text : String) (st : Option GTextStyle) : GParaElement :=
  .textRun { content := some text, textStyle := st }

/-- A table cell holding one paragraph block with the given elements. -/
def c7_cell_of (pes : List GParaElement) : GTableCell :=
  { content := some [.paragraph { elements := some pes }] }

/-- 2×2 table whose runs carry style flags: cell texts A, B, C, D. -/
def c7_table : GTable :=
  { tableRows := some
      [ { tableCells := some [c7_cell_of [c7_run "A" (some { bold := some true })],
                              c7_cell_of [c7_run "B" none]] },
        { tableCells := some [c7_cell_of [c7_run "C" (some { italic := some true, underline := some true })],
                              c7_cell_of [c7_run "D" none]] } ] }

/-- A cell with two paragraph blocks whose run texts are concatenated. -/
def c7_two_block_cell : GTableCell :=
  { content := some [.paragraph { elements := some [c7_run "X " (some { bold := some true })] },
                     .paragraph { elements := some [c7_run " Y" none] }] }

/-- C7: each table renders one row node per row and one cell node per cell
in order; a cell's content is the plain text of every run across ALL of its
paragraph blocks concatenated directly and trimmed exactly once, with no
style wrappers even when the source runs carry style flags (rendering is
invariant under erasing all run styles); the 2×2 table with styled cell
texts A, B, C, D yields exactly two rows of two cells in A,B / C,D order. -/
theorem render_table_structure :
    (∀ c : GTableCell,
        render_cell c = "<td>" ++ py_strip (String.join (cell_texts c)) ++ "</td>") ∧
    (∀ c : GTableCell, render_cell (erase_cell_styles c) = render_cell c) ∧
    (render_table c7_table =
      [ "<table border=\"1\" cellpadding=\"5\" cellspacing=\"0\">",
        "<tr>", "<td>A</td>", "<td>B</td>", "</tr>",
        "<tr>", "<td>C</td>", "<td>D</td>", "</tr>",
        "</table>" ]) ∧
    (render_cell c7_two_block_cell = "<td>X  Y</td>") := by
  refine ⟨fun c => rfl, ?_, by decide, by decide⟩
  intro c
  simp only [render_cell, cell_texts_erase]

/-- C8: the output contains a top-level heading line holding the document
title verbatim, and text is inserted into the markup raw: every run's text
appears character for character inside its styled markup (nothing — in
particular no `<` or `&` — is escaped), shown also on a concrete title
containing `<` and `&`. -/
theorem title_verbatim_unescaped :
    (∀ d : GDoc, ("<h1>" ++ doc_title d ++ "</h1>") ∈ html_parts d) ∧
    (∀ r : GTextRun, (r.content.getD "").data <:+: (styled_run r).data) ∧
    ("<h1>A<&B</h1>" ∈ html_parts { title := some "A<&B" }) := by
  refine ⟨?_, ?_, by decide⟩
  · intro d
    have hmem : ("<h1>" ++ doc_title d ++ "</h1>") ∈ header_parts (doc_title d) := by
      simp [header_parts]
    exact List.mem_append_left _ (List.mem_append_left _ hmem)
  · intro r
    simp only [styled_run]
    exact wrap_if_keeps_substring _ _ _ _ _
      (wrap_if_keeps_substring _ _ _ _ _
        (wrap_if_keeps_substring _ _ _ _ _ (List.infix_refl _)))

end FetchDoc
